import Mathlib

/-!
Shallow embedding of the hotel reservation subsystem of
`A6.2/hotel_system.py`: entities `Hotel`, `Customer`, `Reservation` with
their dict (de)serialization, the `Storage` persistence layer (three
string-keyed collections plus the three on-disk JSON documents), and the
service operations of `HotelService`, `CustomerService` and
`ReservationService`.

Python dicts are modelled as association lists `List (String × α)` with
first-match lookup, in-place overwrite on insert and key removal on erase;
room numbers and room counts are Python ints, modelled as `Int`.  The
whole system state `Sys` carries the in-memory collections together with
the three on-disk documents, so that "persists" / "does not persist" is
part of each operation's result.
-/

/-- A Python dict keyed by strings, as an association list. -/
abbrev Dict (α : Type) := List (String × α)

/-- `d.get(k)` / `d[k]` lookup: first entry with the key. -/
def dictLookup {α : Type} : Dict α → String → Option α
  | [], _ => none
  | (k, v) :: rest, key => if k = key then some v else dictLookup rest key

/-- `d[k] = v`: overwrite the entry in place if the key is present,
append it otherwise (Python dict assignment). -/
def dictInsert {α : Type} : Dict α → String → α → Dict α
  | [], key, v => [(key, v)]
  | (k, w) :: rest, key, v =>
      if k = key then (key, v) :: rest else (k, w) :: dictInsert rest key v

/-- `d.pop(k, None)` / `del d[k]`: drop the key's entries. -/
def dictErase {α : Type} : Dict α → String → Dict α
  | [], _ => []
  | (k, w) :: rest, key =>
      if k = key then dictErase rest key else (k, w) :: dictErase rest key

/-- `{k: f(v) for k, v in d.items()}`. -/
def dictMapVals {α β : Type} (f : α → β) : Dict α → Dict β
  | [] => []
  | (k, v) :: rest => (k, f v) :: dictMapVals f rest

/-- `k in d`. -/
def dictContains {α : Type} (d : Dict α) (key : String) : Bool :=
  (dictLookup d key).isSome

/-- Hotel entity (`class Hotel`). -/
structure Hotel where
  hotel_id : String
  name : String
  rooms : Int
  reserved_rooms : List Int
deriving DecidableEq, Repr

/-- `Hotel.__init__`: `reserved_rooms` starts empty. -/
def Hotel.init (hotel_id name : String) (rooms : Int) : Hotel :=
  { hotel_id := hotel_id, name := name, rooms := rooms, reserved_rooms := [] }

/-- Customer entity (`class Customer`). -/
structure Customer where
  customer_id : String
  name : String
  email : String
deriving DecidableEq, Repr

/-- Reservation entity (`class Reservation`). -/
structure Reservation where
  reservation_id : String
  customer_id : String
  hotel_id : String
  room_number : Int
deriving DecidableEq, Repr

/-- The document (JSON object) form of a `Hotel`, as produced by
`Hotel.to_dict`; `reserved_rooms` may be missing (`data.get(...)`). -/
structure HotelDoc where
  hotel_id : String
  name : String
  rooms : Int
  reserved_rooms : Option (List Int)
deriving DecidableEq, Repr

/-- `Hotel.to_dict`. -/
def Hotel.to_dict (h : Hotel) : HotelDoc :=
  { hotel_id := h.hotel_id, name := h.name, rooms := h.rooms,
    reserved_rooms := some h.reserved_rooms }

/-- `Hotel.from_dict`: missing `reserved_rooms` defaults to `[]`. -/
def Hotel.from_dict (d : HotelDoc) : Hotel :=
  { hotel_id := d.hotel_id, name := d.name, rooms := d.rooms,
    reserved_rooms := d.reserved_rooms.getD [] }

/-- The document form of a `Customer` (`Customer.to_dict`). -/
structure CustomerDoc where
  customer_id : String
  name : String
  email : String
deriving DecidableEq, Repr

/-- `Customer.to_dict`. -/
def Customer.to_dict (c : Customer) : CustomerDoc :=
  { customer_id := c.customer_id, name := c.name, email := c.email }

/-- `Customer.from_dict`. -/
def Customer.from_dict (d : CustomerDoc) : Customer :=
  { customer_id := d.customer_id, name := d.name, email := d.email }

/-- The document form of a `Reservation` (`Reservation.to_dict`). -/
structure ReservationDoc where
  reservation_id : String
  customer_id : String
  hotel_id : String
  room_number : Int
deriving DecidableEq, Repr

/-- `Reservation.to_dict`. -/
def Reservation.to_dict (r : Reservation) : ReservationDoc :=
  { reservation_id := r.reservation_id, customer_id := r.customer_id,
    hotel_id := r.hotel_id, room_number := r.room_number }

/-- `Reservation.from_dict`. -/
def Reservation.from_dict (d : ReservationDoc) : Reservation :=
  { reservation_id := d.reservation_id, customer_id := d.customer_id,
    hotel_id := d.hotel_id, room_number := d.room_number }

/-- State of one on-disk JSON file: absent, unparsable, or holding data. -/
inductive DocFile (α : Type) where
  | absent
  | corrupt
  | ok (data : α)
deriving DecidableEq, Repr

/-- `load_json`: a missing file and one that fails to parse both load as
the empty dict (with a printed diagnostic, not an error). -/
def load_json {α : Type} : DocFile (Dict α) → Dict α
  | DocFile.absent => []
  | DocFile.corrupt => []
  | DocFile.ok d => d

/-- The three persisted documents (`hotels.json`, `customers.json`,
`reservations.json`). -/
structure Disk where
  hotelsFile : DocFile (Dict HotelDoc)
  customersFile : DocFile (Dict CustomerDoc)
  reservationsFile : DocFile (Dict ReservationDoc)
deriving DecidableEq, Repr

/-- Full system state: `Storage`'s three in-memory collections plus the
on-disk documents they are persisted to. -/
structure Sys where
  hotels : Dict Hotel
  customers : Dict Customer
  reservations : Dict Reservation
  disk : Disk
deriving DecidableEq, Repr

/-- `Storage.save_hotel`: rewrite the hotels document. -/
def save_hotel (s : Sys) : Sys :=
  { s with disk :=
    { s.disk with hotelsFile := DocFile.ok (dictMapVals Hotel.to_dict s.hotels) } }

/-- `Storage.save_customer`: rewrite the customers document. -/
def save_customer (s : Sys) : Sys :=
  { s with disk :=
    { s.disk with customersFile := DocFile.ok (dictMapVals Customer.to_dict s.customers) } }

/-- `Storage.save_reservation`: rewrite the reservations document. -/
def save_reservation (s : Sys) : Sys :=
  { s with disk :=
    { s.disk with reservationsFile := DocFile.ok (dictMapVals Reservation.to_dict s.reservations) } }

/-- `Storage.save_all`: rewrite all three documents. -/
def save_all (s : Sys) : Sys :=
  save_reservation (save_customer (save_hotel s))

/-- `Storage.__init__`: build the in-memory collections from the disk
(`_load_hotels`, `_load_customers`, `_load_reservations`). -/
def loadStorage (d : Disk) : Sys :=
  { hotels := dictMapVals Hotel.from_dict (load_json d.hotelsFile)
    customers := dictMapVals Customer.from_dict (load_json d.customersFile)
    reservations := dictMapVals Reservation.from_dict (load_json d.reservationsFile)
    disk := d }

/-- `HotelService.create_hotel`. -/
def HotelService.create_hotel (s : Sys) (hotel : Hotel) : Sys :=
  save_all { s with hotels := dictInsert s.hotels hotel.hotel_id hotel }

/-- `HotelService.delete_hotel`. -/
def HotelService.delete_hotel (s : Sys) (hotel_id : String) : Sys :=
  save_all { s with hotels := dictErase s.hotels hotel_id }

/-- `HotelService.get_hotel`. -/
def HotelService.get_hotel (s : Sys) (hotel_id : String) : Option Hotel :=
  dictLookup s.hotels hotel_id

/-- `HotelService.modify_hotel`: set name and room count if the hotel
exists (in-place mutation of the stored object), silent no-op otherwise. -/
def HotelService.modify_hotel (s : Sys) (hotel_id name : String) (rooms : Int) : Sys :=
  match HotelService.get_hotel s hotel_id with
  | none => s
  | some hotel =>
      save_all { s with
        hotels := dictInsert s.hotels hotel_id { hotel with name := name, rooms := rooms } }

/-- `HotelService.reserve_room`: returns the boolean result and the state
after the call. -/
def HotelService.reserve_room (s : Sys) (hotel_id : String) (room_number : Int) :
    Bool × Sys :=
  match HotelService.get_hotel s hotel_id with
  | none => (false, s)
  | some hotel =>
      if room_number ∈ hotel.reserved_rooms then (false, s)
      else if room_number > hotel.rooms then (false, s)
      else
        (true, save_all { s with
          hotels := dictInsert s.hotels hotel_id
            { hotel with reserved_rooms := hotel.reserved_rooms ++ [room_number] } })

/-- `HotelService.cancel_room`: `list.remove` drops the first occurrence,
modelled by `List.erase`. -/
def HotelService.cancel_room (s : Sys) (hotel_id : String) (room_number : Int) :
    Bool × Sys :=
  match HotelService.get_hotel s hotel_id with
  | none => (false, s)
  | some hotel =>
      if room_number ∈ hotel.reserved_rooms then
        (true, save_all { s with
          hotels := dictInsert s.hotels hotel_id
            { hotel with reserved_rooms := hotel.reserved_rooms.erase room_number } })
      else (false, s)

/-- `CustomerService.create_customer`. -/
def CustomerService.create_customer (s : Sys) (customer : Customer) : Sys :=
  save_all { s with customers := dictInsert s.customers customer.customer_id customer }

/-- `CustomerService.delete_customer`. -/
def CustomerService.delete_customer (s : Sys) (customer_id : String) : Sys :=
  save_all { s with customers := dictErase s.customers customer_id }

/-- `CustomerService.get_customer`. -/
def CustomerService.get_customer (s : Sys) (customer_id : String) : Option Customer :=
  dictLookup s.customers customer_id

/-- `CustomerService.modify_customer`. -/
def CustomerService.modify_customer (s : Sys) (customer_id name email : String) : Sys :=
  match CustomerService.get_customer s customer_id with
  | none => s
  | some customer =>
      save_all { s with
        customers := dictInsert s.customers customer_id { customer with name := name, email := email } }

/-- `ReservationService.create_reservation`: reject an unknown customer,
then delegate room allocation to `HotelService.reserve_room`; only on its
success insert the reservation record (overwriting any record with the
same identifier) and persist. -/
def ReservationService.create_reservation (s : Sys) (r : Reservation) : Bool × Sys :=
  if dictContains s.customers r.customer_id = false then (false, s)
  else
    let p := HotelService.reserve_room s r.hotel_id r.room_number
    if p.1 = false then (false, p.2)
    else
      (true, save_all { p.2 with reservations := dictInsert p.2.reservations r.reservation_id r })

/-- `ReservationService.cancel_reservation`: fail if the identifier is
unknown; otherwise release the room best-effort (the result of
`cancel_room` is not examined), delete the record and persist. -/
def ReservationService.cancel_reservation (s : Sys) (reservation_id : String) :
    Bool × Sys :=
  match dictLookup s.reservations reservation_id with
  | none => (false, s)
  | some r =>
      let p := HotelService.cancel_room s r.hotel_id r.room_number
      (true, save_all { p.2 with reservations := dictErase p.2.reservations reservation_id })

/-- One service operation, as invocable by an external caller; the
entities passed to the create operations are built by the Python
constructors (`Hotel.__init__` starts with no reserved rooms). -/
inductive Op where
  | createHotel (hotel_id name : String) (rooms : Int)
  | deleteHotel (hotel_id : String)
  | modifyHotel (hotel_id name : String) (rooms : Int)
  | reserveRoom (hotel_id : String) (room_number : Int)
  | cancelRoom (hotel_id : String) (room_number : Int)
  | createCustomer (customer_id name email : String)
  | deleteCustomer (customer_id : String)
  | modifyCustomer (customer_id name email : String)
  | createReservation (r : Reservation)
  | cancelReservation (reservation_id : String)
deriving DecidableEq, Repr

/-- Apply one operation (boolean results are discarded). -/
def step (s : Sys) : Op → Sys
  | Op.createHotel hid name rooms => HotelService.create_hotel s (Hotel.init hid name rooms)
  | Op.deleteHotel hid => HotelService.delete_hotel s hid
  | Op.modifyHotel hid name rooms => HotelService.modify_hotel s hid name rooms
  | Op.reserveRoom hid n => (HotelService.reserve_room s hid n).2
  | Op.cancelRoom hid n => (HotelService.cancel_room s hid n).2
  | Op.createCustomer cid name email =>
      CustomerService.create_customer s { customer_id := cid, name := name, email := email }
  | Op.deleteCustomer cid => CustomerService.delete_customer s cid
  | Op.modifyCustomer cid name email => CustomerService.modify_customer s cid name email
  | Op.createReservation r => (ReservationService.create_reservation s r).2
  | Op.cancelReservation rid => (ReservationService.cancel_reservation s rid).2

/-- The empty store: a `Storage` constructed with no data files present. -/
def initSys : Sys :=
  loadStorage { hotelsFile := DocFile.absent, customersFile := DocFile.absent,
                reservationsFile := DocFile.absent }

/-- The state after a sequence of service operations from the empty store. -/
def run (ops : List Op) : Sys :=
  ops.foldl step initSys

/-- A small populated store: one hotel with 5 rooms and one customer. -/
def sampleStore : Sys := run [Op.createHotel "H1" "N" 5, Op.createCustomer "C1" "c" "e"]

/-- A reservation for the sample store. -/
def sampleReservation : Reservation :=
  { reservation_id := "R1", customer_id := "C1", hotel_id := "H1", room_number := 2 }

/-- The sample store after successfully creating `sampleReservation`. -/
def sampleAfterCreate : Sys :=
  (ReservationService.create_reservation sampleStore sampleReservation).2

/-- A reservation reusing `sampleReservation`'s identifier for a
different (free) room of the same hotel. -/
def overwriteReservation : Reservation :=
  { reservation_id := "R1", customer_id := "C1", hotel_id := "H1", room_number := 3 }

/-- A reachable store in which two reservation records reference the same
room: room 1 of hotel `H` is booked by `I1`, released directly through
`cancel_room`, then booked again by `I2`, leaving both records pointing
at room 1. -/
def doubleRefStore : Sys := run [Op.createHotel "H" "N" 10,
  Op.createCustomer "C" "c" "e",
  Op.createReservation
    { reservation_id := "I1", customer_id := "C", hotel_id := "H", room_number := 1 },
  Op.cancelRoom "H" 1,
  Op.createReservation
    { reservation_id := "I2", customer_id := "C", hotel_id := "H", room_number := 1 }]

/-! ## Basic lemmas about the dict model and persistence -/

@[simp]
theorem save_all_hotels (s : Sys) : (save_all s).hotels = s.hotels := rfl

@[simp]
theorem save_all_customers (s : Sys) : (save_all s).customers = s.customers := rfl

@[simp]
theorem save_all_reservations (s : Sys) : (save_all s).reservations = s.reservations := rfl

theorem dictLookup_insert_self {α : Type} (d : Dict α) (k : String) (v : α) :
    dictLookup (dictInsert d k v) k = some v := by
  induction d with
  | nil => simp [dictInsert, dictLookup]
  | cons kv rest ih =>
      obtain ⟨k1, v1⟩ := kv
      by_cases h : k1 = k <;> simp [dictInsert, dictLookup, h, ih]

theorem dictLookup_insert_ne {α : Type} (d : Dict α) (k key : String) (v : α)
    (h : key ≠ k) : dictLookup (dictInsert d k v) key = dictLookup d key := by
  induction d with
  | nil => simp [dictInsert, dictLookup, Ne.symm h]
  | cons kv rest ih =>
      obtain ⟨k1, v1⟩ := kv
      by_cases h1 : k1 = k
      · subst h1
        simp [dictInsert, dictLookup, Ne.symm h]
      · by_cases h2 : k1 = key <;> simp [dictInsert, dictLookup, h, h1, h2, ih]

theorem dictLookup_erase_self {α : Type} (d : Dict α) (k : String) :
    dictLookup (dictErase d k) k = none := by
  induction d with
  | nil => simp [dictErase, dictLookup]
  | cons kv rest ih =>
      obtain ⟨k1, v1⟩ := kv
      by_cases h : k1 = k <;> simp [dictErase, dictLookup, h, ih]

theorem dictLookup_erase_ne {α : Type} (d : Dict α) (k key : String)
    (h : key ≠ k) : dictLookup (dictErase d k) key = dictLookup d key := by
  induction d with
  | nil => simp [dictErase, dictLookup]
  | cons kv rest ih =>
      obtain ⟨k1, v1⟩ := kv
      by_cases h1 : k1 = k
      · subst h1
        simp [dictErase, dictLookup, Ne.symm h, ih]
      · by_cases h2 : k1 = key <;> simp [dictErase, dictLookup, h, h1, h2, ih]

theorem dictLookup_mem {α : Type} {d : Dict α} {k : String} {v : α}
    (h : dictLookup d k = some v) : (k, v) ∈ d := by
  induction d with
  | nil => simp [dictLookup] at h
  | cons kv rest ih =>
      obtain ⟨k1, v1⟩ := kv
      by_cases h1 : k1 = k
      · subst h1
        simp [dictLookup] at h
        simp [h]
      · simp [dictLookup, h1] at h
        exact List.mem_cons_of_mem _ (ih h)

theorem mem_dictInsert {α : Type} {d : Dict α} {k : String} {v : α} {kv : String × α}
    (h : kv ∈ dictInsert d k v) : kv = (k, v) ∨ kv ∈ d := by
  induction d with
  | nil => simp [dictInsert] at h; simp [h]
  | cons kw rest ih =>
      obtain ⟨k1, v1⟩ := kw
      by_cases h1 : k1 = k
      · simp [dictInsert, h1] at h
        rcases h with h | h
        · exact Or.inl h
        · exact Or.inr (List.mem_cons_of_mem _ h)
      · simp [dictInsert, h1] at h
        rcases h with h | h
        · exact Or.inr (by simp [h])
        · rcases ih h with h2 | h2
          · exact Or.inl h2
          · exact Or.inr (List.mem_cons_of_mem _ h2)

theorem mem_dictErase {α : Type} {d : Dict α} {k : String} {kv : String × α}
    (h : kv ∈ dictErase d k) : kv ∈ d := by
  induction d with
  | nil => simp [dictErase] at h
  | cons kw rest ih =>
      obtain ⟨k1, v1⟩ := kw
      by_cases h1 : k1 = k
      · simp [dictErase, h1] at h
        exact List.mem_cons_of_mem _ (ih h)
      · simp [dictErase, h1] at h
        rcases h with h | h
        · simp [h]
        · exact List.mem_cons_of_mem _ (ih h)

theorem mem_dictInsert_of_nodup_keys {α : Type} {d : Dict α}
    (hnd : (d.map Prod.fst).Nodup) {k : String} {v : α} {kv : String × α}
    (h : kv ∈ dictInsert d k v) : kv = (k, v) ∨ (kv ∈ d ∧ kv.1 ≠ k) := by
  induction d with
  | nil => simp [dictInsert] at h; simp [h]
  | cons kw rest ih =>
      obtain ⟨k1, v1⟩ := kw
      simp only [List.map_cons, List.nodup_cons] at hnd
      by_cases h1 : k1 = k
      · subst h1
        simp [dictInsert] at h
        rcases h with h | h
        · exact Or.inl h
        · refine Or.inr ⟨List.mem_cons_of_mem _ h, ?_⟩
          intro hk
          exact hnd.1 (hk ▸ List.mem_map_of_mem Prod.fst h)
      · simp [dictInsert, h1] at h
        rcases h with h | h
        · exact Or.inr ⟨by simp [h], by simp [h, h1]⟩
        · rcases ih hnd.2 h with h2 | h2
          · exact Or.inl h2
          · exact Or.inr ⟨List.mem_cons_of_mem _ h2.1, h2.2⟩

/-! ## Serialization round trips -/

theorem hotel_from_dict_to_dict (h : Hotel) : Hotel.from_dict (Hotel.to_dict h) = h := rfl

theorem customer_from_dict_to_dict (c : Customer) :
    Customer.from_dict (Customer.to_dict c) = c := rfl

theorem reservation_from_dict_to_dict (r : Reservation) :
    Reservation.from_dict (Reservation.to_dict r) = r := rfl

theorem dictMapVals_inverse {α β : Type} (f : α → β) (g : β → α)
    (hfg : ∀ a, g (f a) = a) (d : Dict α) :
    dictMapVals g (dictMapVals f d) = d := by
  induction d with
  | nil => rfl
  | cons kv rest ih =>
      obtain ⟨k, v⟩ := kv
      simp [dictMapVals, hfg, ih]

/-! ## List lemmas about reserved rooms -/

theorem erase_append_singleton (l : List Int) (n : Int) (h : n ∉ l) :
    (l ++ [n]).erase n = l := by
  rw [List.erase_append_right _ h, List.erase_cons_head]
  simp

theorem nodup_append_singleton (l : List Int) (n : Int) (h : n ∉ l) (hl : l.Nodup) :
    (l ++ [n]).Nodup := by
  rw [List.nodup_append]
  refine ⟨hl, List.nodup_singleton n, ?_⟩
  intro a ha hna
  simp at hna
  exact h (hna ▸ ha)

/-! ## The distinctness invariant on reserved rooms -/

theorem reserve_room_nodup (s : Sys) (hid : String) (n : Int)
    (hs : ∀ kv ∈ s.hotels, kv.2.reserved_rooms.Nodup) :
    ∀ kv ∈ (HotelService.reserve_room s hid n).2.hotels, kv.2.reserved_rooms.Nodup := by
  intro kv hkv
  simp only [HotelService.reserve_room, HotelService.get_hotel] at hkv
  cases hl : dictLookup s.hotels hid with
  | none => simp [hl] at hkv; exact hs kv hkv
  | some h =>
      simp only [hl] at hkv
      by_cases hmem : n ∈ h.reserved_rooms
      · simp [hmem] at hkv
        exact hs kv hkv
      · by_cases hgt : n > h.rooms
        · simp [hmem, hgt] at hkv
          exact hs kv hkv
        · simp [hmem, hgt] at hkv
          rcases mem_dictInsert hkv with h2 | h2
          · subst h2
            exact nodup_append_singleton _ _ hmem (hs (hid, h) (dictLookup_mem hl))
          · exact hs kv h2

theorem cancel_room_nodup (s : Sys) (hid : String) (n : Int)
    (hs : ∀ kv ∈ s.hotels, kv.2.reserved_rooms.Nodup) :
    ∀ kv ∈ (HotelService.cancel_room s hid n).2.hotels, kv.2.reserved_rooms.Nodup := by
  intro kv hkv
  simp only [HotelService.cancel_room, HotelService.get_hotel] at hkv
  cases hl : dictLookup s.hotels hid with
  | none => simp [hl] at hkv; exact hs kv hkv
  | some h =>
      simp only [hl] at hkv
      by_cases hmem : n ∈ h.reserved_rooms
      · simp [hmem] at hkv
        rcases mem_dictInsert hkv with h2 | h2
        · subst h2
          exact List.Nodup.erase n (hs (hid, h) (dictLookup_mem hl))
        · exact hs kv h2
      · simp [hmem] at hkv
        exact hs kv hkv

theorem step_nodup (s : Sys) (op : Op)
    (hs : ∀ kv ∈ s.hotels, kv.2.reserved_rooms.Nodup) :
    ∀ kv ∈ (step s op).hotels, kv.2.reserved_rooms.Nodup := by
  cases op with
  | createHotel hid name rooms =>
      intro kv hkv
      simp only [step, HotelService.create_hotel, save_all_hotels] at hkv
      rcases mem_dictInsert hkv with h2 | h2
      · subst h2; simp [Hotel.init]
      · exact hs kv h2
  | deleteHotel hid =>
      intro kv hkv
      simp only [step, HotelService.delete_hotel, save_all_hotels] at hkv
      exact hs kv (mem_dictErase hkv)
  | modifyHotel hid name rooms =>
      intro kv hkv
      simp only [step, HotelService.modify_hotel, HotelService.get_hotel] at hkv
      cases hl : dictLookup s.hotels hid with
      | none => simp [hl] at hkv; exact hs kv hkv
      | some h =>
          simp only [hl, save_all_hotels] at hkv
          rcases mem_dictInsert hkv with h2 | h2
          · subst h2
            exact hs (hid, h) (dictLookup_mem hl)
          · exact hs kv h2
  | reserveRoom hid n => exact reserve_room_nodup s hid n hs
  | cancelRoom hid n => exact cancel_room_nodup s hid n hs
  | createCustomer cid name email => exact hs
  | deleteCustomer cid => exact hs
  | modifyCustomer cid name email =>
      intro kv hkv
      simp only [step, CustomerService.modify_customer, CustomerService.get_customer] at hkv
      cases hl : dictLookup s.customers cid with
      | none => simp [hl] at hkv; exact hs kv hkv
      | some c =>
          simp only [hl, save_all_hotels] at hkv
          exact hs kv hkv
  | createReservation r =>
      intro kv hkv
      simp only [step, ReservationService.create_reservation] at hkv
      by_cases hc : dictContains s.customers r.customer_id = false
      · simp [hc] at hkv
        exact hs kv hkv
      · by_cases hp : (HotelService.reserve_room s r.hotel_id r.room_number).1 = false
        · simp [hc, hp] at hkv
          exact reserve_room_nodup s r.hotel_id r.room_number hs kv hkv
        · simp [hc, hp] at hkv
          exact reserve_room_nodup s r.hotel_id r.room_number hs kv hkv
  | cancelReservation rid =>
      intro kv hkv
      simp only [step, ReservationService.cancel_reservation] at hkv
      cases hl : dictLookup s.reservations rid with
      | none => simp [hl] at hkv; exact hs kv hkv
      | some r =>
          simp only [hl, save_all_hotels] at hkv
          exact cancel_room_nodup s r.hotel_id r.room_number hs kv hkv

theorem foldl_step_nodup (ops : List Op) (s : Sys)
    (hs : ∀ kv ∈ s.hotels, kv.2.reserved_rooms.Nodup) :
    ∀ kv ∈ (ops.foldl step s).hotels, kv.2.reserved_rooms.Nodup := by
  induction ops generalizing s with
  | nil => exact hs
  | cons op rest ih => exact ih (step s op) (step_nodup s op hs)

theorem run_hotels_nodup (ops : List Op) :
    ∀ kv ∈ (run ops).hotels, kv.2.reserved_rooms.Nodup := by
  refine foldl_step_nodup ops initSys ?_
  intro kv hkv
  simp [initSys, loadStorage, load_json, dictMapVals] at hkv

/-! ## Claims -/

/-- C1 (amended): in every state reachable from the empty store by the
service operations, every hotel's reserved-room list is pairwise
distinct.  (The range part of the original claim fails: see the
counterexample.) -/
theorem C1_reachable_reserved_rooms_distinct (ops : List Op) (hid : String) (h : Hotel)
    (hl : dictLookup (run ops).hotels hid = some h) : h.reserved_rooms.Nodup :=
  run_hotels_nodup ops (hid, h) (dictLookup_mem hl)

theorem C1_reachable_reserved_rooms_distinct_witness :
    dictLookup (run [Op.createHotel "H1" "T" 10, Op.reserveRoom "H1" 3]).hotels "H1" =
      some { hotel_id := "H1", name := "T", rooms := 10, reserved_rooms := [3] } ∧
    ({ hotel_id := "H1", name := "T", rooms := 10, reserved_rooms := [3] } : Hotel).reserved_rooms.Nodup :=
  ⟨by decide, C1_reachable_reserved_rooms_distinct
    [Op.createHotel "H1" "T" 10, Op.reserveRoom "H1" 3] "H1"
    { hotel_id := "H1", name := "T", rooms := 10, reserved_rooms := [3] } (by decide)⟩

/-- C1 counterexample: the claimed range invariant `[1, total_rooms]`
fails on reachable states.  Reserving room 0 succeeds (the lower bound is
never checked), and `modify_hotel` can shrink `rooms` below an
already-reserved room number. -/
theorem C1_counterexample :
    (dictLookup (run [Op.createHotel "H1" "Test" 10, Op.reserveRoom "H1" 0]).hotels "H1" =
        some { hotel_id := "H1", name := "Test", rooms := 10, reserved_rooms := [0] } ∧
      ¬ (1 ≤ (0 : Int))) ∧
    (dictLookup (run [Op.createHotel "H1" "Test" 10, Op.reserveRoom "H1" 5,
          Op.modifyHotel "H1" "Test" 2]).hotels "H1" =
        some { hotel_id := "H1", name := "Test", rooms := 2, reserved_rooms := [5] } ∧
      ¬ ((5 : Int) ≤ (2 : Int))) :=
  ⟨⟨by decide, by decide⟩, ⟨by decide, by decide⟩⟩

/-- C2: `reserve_room` fails and leaves the whole state (collections and
disk) unchanged exactly when the hotel is unknown, the room is already
reserved, or the room number exceeds `rooms` (no lower-bound check);
otherwise it appends the room to the reserved list, persists, and
returns success; and an immediate second identical call fails. -/
theorem C2_reserve_room_spec (s : Sys) (hid : String) (n : Int) :
    ((HotelService.reserve_room s hid n).1 = false ↔
      dictLookup s.hotels hid = none ∨
        ∃ h, dictLookup s.hotels hid = some h ∧ (n ∈ h.reserved_rooms ∨ n > h.rooms)) ∧
    ((HotelService.reserve_room s hid n).1 = false →
      (HotelService.reserve_room s hid n).2 = s) ∧
    (∀ h, dictLookup s.hotels hid = some h → n ∉ h.reserved_rooms → ¬ n > h.rooms →
      HotelService.reserve_room s hid n =
        (true, save_all { s with
          hotels := dictInsert s.hotels hid
            { h with reserved_rooms := h.reserved_rooms ++ [n] } })) ∧
    (HotelService.reserve_room (HotelService.reserve_room s hid n).2 hid n).1 = false := by
  cases hl : dictLookup s.hotels hid with
  | none =>
      simp [HotelService.reserve_room, HotelService.get_hotel, hl]
  | some h =>
      by_cases hmem : n ∈ h.reserved_rooms
      · simp [HotelService.reserve_room, HotelService.get_hotel, hl, hmem]
      · by_cases hgt : n > h.rooms
        · simp [HotelService.reserve_room, HotelService.get_hotel, hl, hmem, hgt]
        · simp [HotelService.reserve_room, HotelService.get_hotel, hl, hmem, hgt,
            dictLookup_insert_self]

/-- C3: `create_reservation` for a reservation whose customer identifier
is absent from the customer collection fails and leaves the whole state
unchanged. -/
theorem C3_create_reservation_unknown_customer (s : Sys) (r : Reservation)
    (hc : dictLookup s.customers r.customer_id = none) :
    ReservationService.create_reservation s r = (false, s) := by
  simp [ReservationService.create_reservation, dictContains, hc]

theorem C3_create_reservation_unknown_customer_witness :
    dictLookup initSys.customers "C0" = none ∧
    ReservationService.create_reservation initSys
      { reservation_id := "R0", customer_id := "C0", hotel_id := "H0", room_number := 1 } =
      (false, initSys) :=
  ⟨rfl, C3_create_reservation_unknown_customer _ _ rfl⟩

theorem cancel_room_reservations (s : Sys) (hid : String) (n : Int) :
    (HotelService.cancel_room s hid n).2.reservations = s.reservations := by
  simp only [HotelService.cancel_room, HotelService.get_hotel]
  cases dictLookup s.hotels hid with
  | none => rfl
  | some h => by_cases hmem : n ∈ h.reserved_rooms <;> simp [hmem]

/-- C5: `cancel_reservation` fails and changes nothing exactly when the
identifier is absent; when present it returns success and removes the
record, regardless of what the best-effort `cancel_room` step reported. -/
theorem C5_cancel_reservation_spec (s : Sys) (rid : String) :
    ((ReservationService.cancel_reservation s rid).1 = false ↔
      dictLookup s.reservations rid = none) ∧
    (dictLookup s.reservations rid = none →
      ReservationService.cancel_reservation s rid = (false, s)) ∧
    (∀ r, dictLookup s.reservations rid = some r →
      (ReservationService.cancel_reservation s rid).1 = true ∧
      (ReservationService.cancel_reservation s rid).2.reservations =
        dictErase s.reservations rid ∧
      dictLookup (ReservationService.cancel_reservation s rid).2.reservations rid = none) := by
  cases hl : dictLookup s.reservations rid with
  | none => simp [ReservationService.cancel_reservation, hl]
  | some r =>
      simp [ReservationService.cancel_reservation, hl, cancel_room_reservations,
        dictLookup_erase_self]

/-- C7: `cancel_room` fails when the hotel is unknown or the room is not
reserved; when the room is reserved it removes it, persists, and returns
success; after a successful `reserve_room(H, n)`, `cancel_room(H, n)`
succeeds and `n` is no longer reserved. -/
theorem C7_cancel_room_spec (s : Sys) (hid : String) (n : Int) :
    (dictLookup s.hotels hid = none → HotelService.cancel_room s hid n = (false, s)) ∧
    (∀ h, dictLookup s.hotels hid = some h → n ∉ h.reserved_rooms →
      HotelService.cancel_room s hid n = (false, s)) ∧
    (∀ h, dictLookup s.hotels hid = some h → n ∈ h.reserved_rooms →
      HotelService.cancel_room s hid n =
        (true, save_all { s with
          hotels := dictInsert s.hotels hid
            { h with reserved_rooms := h.reserved_rooms.erase n } })) ∧
    ((HotelService.reserve_room s hid n).1 = true →
      (HotelService.cancel_room (HotelService.reserve_room s hid n).2 hid n).1 = true ∧
      ∃ h2, dictLookup (HotelService.cancel_room
          (HotelService.reserve_room s hid n).2 hid n).2.hotels hid = some h2 ∧
        n ∉ h2.reserved_rooms) := by
  cases hl : dictLookup s.hotels hid with
  | none =>
      simp [HotelService.cancel_room, HotelService.reserve_room, HotelService.get_hotel, hl]
  | some h =>
      by_cases hmem : n ∈ h.reserved_rooms
      · simp [HotelService.cancel_room, HotelService.reserve_room, HotelService.get_hotel,
          hl, hmem]
      · by_cases hgt : n > h.rooms
        · simp [HotelService.cancel_room, HotelService.reserve_room, HotelService.get_hotel,
            hl, hmem, hgt]
        · simp [HotelService.cancel_room, HotelService.reserve_room, HotelService.get_hotel,
            hl, hmem, hgt, dictLookup_insert_self,
            erase_append_singleton h.reserved_rooms n hmem]

/-- C8: `modify_hotel` on an existing hotel sets the name and room count
unconditionally (no validation against the reserved list) and persists;
on an unknown identifier it is a silent no-op that does not persist. -/
theorem C8_modify_hotel_spec (s : Sys) (hid name : String) (rooms : Int) :
    (dictLookup s.hotels hid = none → HotelService.modify_hotel s hid name rooms = s) ∧
    (∀ h, dictLookup s.hotels hid = some h →
      HotelService.modify_hotel s hid name rooms =
        save_all { s with
          hotels := dictInsert s.hotels hid { h with name := name, rooms := rooms } }) := by
  cases hl : dictLookup s.hotels hid with
  | none => simp [HotelService.modify_hotel, HotelService.get_hotel, hl]
  | some h => simp [HotelService.modify_hotel, HotelService.get_hotel, hl]

/-- C4: after a successful `create_reservation(r)`, the immediate
`cancel_reservation(r.reservation_id)` succeeds, the referenced hotel's
reserved list no longer contains `r.room_number`, and the reservation
collection no longer contains the identifier. -/
theorem C4_cancel_after_create (s s2 : Sys) (r : Reservation)
    (hc : ReservationService.create_reservation s r = (true, s2)) :
    (ReservationService.cancel_reservation s2 r.reservation_id).1 = true ∧
    (∃ h2, dictLookup (ReservationService.cancel_reservation s2 r.reservation_id).2.hotels
        r.hotel_id = some h2 ∧ r.room_number ∉ h2.reserved_rooms) ∧
    dictLookup (ReservationService.cancel_reservation s2 r.reservation_id).2.reservations
      r.reservation_id = none := by
  simp only [ReservationService.create_reservation] at hc
  by_cases hcust : dictContains s.customers r.customer_id = false
  · simp [hcust] at hc
  · simp only [hcust, if_false, if_neg] at hc
    cases hl : dictLookup s.hotels r.hotel_id with
    | none => simp [HotelService.reserve_room, HotelService.get_hotel, hl] at hc
    | some h =>
        by_cases hmem : r.room_number ∈ h.reserved_rooms
        · simp [HotelService.reserve_room, HotelService.get_hotel, hl, hmem] at hc
        · by_cases hgt : r.room_number > h.rooms
          · simp [HotelService.reserve_room, HotelService.get_hotel, hl, hmem, hgt] at hc
          · simp only [HotelService.reserve_room, HotelService.get_hotel, hl, hmem, hgt,
              if_false, if_neg, ite_false] at hc
            simp [hmem, hgt] at hc
            subst hc
            simp [ReservationService.cancel_reservation, HotelService.cancel_room,
              HotelService.get_hotel, dictLookup_insert_self, dictLookup_erase_self,
              erase_append_singleton h.reserved_rooms r.room_number hmem, hmem]

theorem C4_cancel_after_create_witness :
    ReservationService.create_reservation sampleStore sampleReservation =
      (true, sampleAfterCreate) ∧
    ((ReservationService.cancel_reservation sampleAfterCreate
        sampleReservation.reservation_id).1 = true ∧
      (∃ h2, dictLookup (ReservationService.cancel_reservation sampleAfterCreate
          sampleReservation.reservation_id).2.hotels sampleReservation.hotel_id = some h2 ∧
        sampleReservation.room_number ∉ h2.reserved_rooms) ∧
      dictLookup (ReservationService.cancel_reservation sampleAfterCreate
          sampleReservation.reservation_id).2.reservations
        sampleReservation.reservation_id = none) :=
  ⟨by decide,
    C4_cancel_after_create sampleStore sampleAfterCreate sampleReservation (by decide)⟩

/-- C6: persisting the three collections and loading them into a fresh
store reconstructs them exactly; corrupting exactly one document makes
only that collection reload empty, leaving the other two intact. -/
theorem C6_round_trip (s : Sys) :
    ((loadStorage (save_all s).disk).hotels = s.hotels ∧
      (loadStorage (save_all s).disk).customers = s.customers ∧
      (loadStorage (save_all s).disk).reservations = s.reservations) ∧
    ((loadStorage { (save_all s).disk with hotelsFile := DocFile.corrupt }).hotels = [] ∧
      (loadStorage { (save_all s).disk with hotelsFile := DocFile.corrupt }).customers =
        s.customers ∧
      (loadStorage { (save_all s).disk with hotelsFile := DocFile.corrupt }).reservations =
        s.reservations) ∧
    ((loadStorage { (save_all s).disk with customersFile := DocFile.corrupt }).customers = [] ∧
      (loadStorage { (save_all s).disk with customersFile := DocFile.corrupt }).hotels =
        s.hotels ∧
      (loadStorage { (save_all s).disk with customersFile := DocFile.corrupt }).reservations =
        s.reservations) ∧
    ((loadStorage { (save_all s).disk with reservationsFile := DocFile.corrupt }).reservations
        = [] ∧
      (loadStorage { (save_all s).disk with reservationsFile := DocFile.corrupt }).hotels =
        s.hotels ∧
      (loadStorage { (save_all s).disk with reservationsFile := DocFile.corrupt }).customers =
        s.customers) := by
  simp [loadStorage, load_json, save_all, save_hotel, save_customer, save_reservation,
    dictMapVals_inverse Hotel.to_dict Hotel.from_dict hotel_from_dict_to_dict,
    dictMapVals_inverse Customer.to_dict Customer.from_dict customer_from_dict_to_dict,
    dictMapVals_inverse Reservation.to_dict Reservation.from_dict reservation_from_dict_to_dict,
    dictMapVals]

/-- C10: `delete_hotel` removes only the hotel entry (reservations and
customers untouched); a reservation left dangling by the deletion can
still be cancelled: `cancel_reservation` succeeds, removes the record,
and leaves the hotel collection unchanged. -/
theorem C10_delete_hotel_no_cascade (s : Sys) (hid rid : String) (r : Reservation)
    (hr : dictLookup s.reservations rid = some r) (hh : r.hotel_id = hid) :
    (HotelService.delete_hotel s hid).reservations = s.reservations ∧
    (HotelService.delete_hotel s hid).customers = s.customers ∧
    dictLookup (HotelService.delete_hotel s hid).hotels hid = none ∧
    (ReservationService.cancel_reservation (HotelService.delete_hotel s hid) rid).1 = true ∧
    dictLookup (ReservationService.cancel_reservation
        (HotelService.delete_hotel s hid) rid).2.reservations rid = none ∧
    (ReservationService.cancel_reservation (HotelService.delete_hotel s hid) rid).2.hotels =
      (HotelService.delete_hotel s hid).hotels := by
  subst hh
  simp [HotelService.delete_hotel, ReservationService.cancel_reservation,
    HotelService.cancel_room, HotelService.get_hotel, hr, dictLookup_erase_self]

theorem C10_delete_hotel_no_cascade_witness :
    dictLookup sampleAfterCreate.reservations "R1" = some sampleReservation ∧
    ((HotelService.delete_hotel sampleAfterCreate "H1").reservations =
        sampleAfterCreate.reservations ∧
      (HotelService.delete_hotel sampleAfterCreate "H1").customers =
        sampleAfterCreate.customers ∧
      dictLookup (HotelService.delete_hotel sampleAfterCreate "H1").hotels "H1" = none ∧
      (ReservationService.cancel_reservation
        (HotelService.delete_hotel sampleAfterCreate "H1") "R1").1 = true ∧
      dictLookup (ReservationService.cancel_reservation
          (HotelService.delete_hotel sampleAfterCreate "H1") "R1").2.reservations "R1" = none ∧
      (ReservationService.cancel_reservation
          (HotelService.delete_hotel sampleAfterCreate "H1") "R1").2.hotels =
        (HotelService.delete_hotel sampleAfterCreate "H1").hotels) :=
  ⟨by decide,
    C10_delete_hotel_no_cascade sampleAfterCreate "H1" "R1" sampleReservation
      (by decide) (by decide)⟩

/-- C9 counterexample: in the reachable store `doubleRefStore` two
records (`I1` and `I2`) both reference room 1 of hotel `H`.  Reusing
identifier `I2` for free room 2 succeeds, yet record `I1` still
references room 1 afterwards, refuting "no reservation in the collection
references room n". -/
theorem C9_counterexample :
    dictLookup doubleRefStore.reservations "I2" =
      some { reservation_id := "I2", customer_id := "C", hotel_id := "H", room_number := 1 } ∧
    dictLookup doubleRefStore.hotels "H" =
      some { hotel_id := "H", name := "N", rooms := 10, reserved_rooms := [1] } ∧
    (ReservationService.create_reservation doubleRefStore
        { reservation_id := "I2", customer_id := "C", hotel_id := "H", room_number := 2 }).1 =
      true ∧
    dictLookup (ReservationService.create_reservation doubleRefStore
        { reservation_id := "I2", customer_id := "C", hotel_id := "H",
          room_number := 2 }).2.reservations "I1" =
      some { reservation_id := "I1", customer_id := "C", hotel_id := "H", room_number := 1 } :=
  ⟨by decide, by decide, by decide, by decide⟩

/-- C9 (amended): reusing an existing reservation identifier for an
existing customer and a free room `m` of the same hotel succeeds and
silently overwrites the record, and afterwards both the old room `n` and
`m` are reserved; provided the reservation keys are duplicate-free and no
other record references room `n` of that hotel, no reservation in the
resulting collection references room `n` — the old room is orphaned
rather than released. -/
theorem C9_reservation_id_overwrite (s : Sys) (rOld rNew : Reservation) (h : Hotel)
    (hkeys : (s.reservations.map Prod.fst).Nodup)
    (hold : dictLookup s.reservations rNew.reservation_id = some rOld)
    (hhid : rOld.hotel_id = rNew.hotel_id)
    (hh : dictLookup s.hotels rNew.hotel_id = some h)
    (hn : rOld.room_number ∈ h.reserved_rooms)
    (hcust : (dictLookup s.customers rNew.customer_id).isSome = true)
    (hm : rNew.room_number ∉ h.reserved_rooms)
    (hmr : ¬ rNew.room_number > h.rooms)
    (hother : ∀ kv ∈ s.reservations, kv.1 ≠ rNew.reservation_id →
      ¬ (kv.2.hotel_id = rNew.hotel_id ∧ kv.2.room_number = rOld.room_number)) :
    (ReservationService.create_reservation s rNew).1 = true ∧
    dictLookup (ReservationService.create_reservation s rNew).2.reservations
      rNew.reservation_id = some rNew ∧
    (∃ h2, dictLookup (ReservationService.create_reservation s rNew).2.hotels
        rNew.hotel_id = some h2 ∧
      rOld.room_number ∈ h2.reserved_rooms ∧ rNew.room_number ∈ h2.reserved_rooms) ∧
    (∀ kv ∈ (ReservationService.create_reservation s rNew).2.reservations,
      ¬ (kv.2.hotel_id = rNew.hotel_id ∧ kv.2.room_number = rOld.room_number)) := by
  refine ⟨?_, ?_, ?_, ?_⟩
  · simp [ReservationService.create_reservation, dictContains, hcust,
      HotelService.reserve_room, HotelService.get_hotel, hh, hm, hmr]
  · simp [ReservationService.create_reservation, dictContains, hcust,
      HotelService.reserve_room, HotelService.get_hotel, hh, hm, hmr,
      dictLookup_insert_self]
  · simp [ReservationService.create_reservation, dictContains, hcust,
      HotelService.reserve_room, HotelService.get_hotel, hh, hm, hmr,
      dictLookup_insert_self, hn]
  · intro kv hkv
    simp [ReservationService.create_reservation, dictContains, hcust,
      HotelService.reserve_room, HotelService.get_hotel, hh, hm, hmr] at hkv
    rcases mem_dictInsert_of_nodup_keys hkeys hkv with h2 | h2
    · rw [h2]
      rintro ⟨-, hr2⟩
      exact hm (hr2 ▸ hn)
    · exact hother kv h2.1 h2.2

theorem C9_reservation_id_overwrite_witness :
    dictLookup sampleAfterCreate.reservations "R1" = some sampleReservation ∧
    ((ReservationService.create_reservation sampleAfterCreate overwriteReservation).1 = true ∧
      dictLookup (ReservationService.create_reservation sampleAfterCreate
          overwriteReservation).2.reservations overwriteReservation.reservation_id =
        some overwriteReservation ∧
      (∃ h2, dictLookup (ReservationService.create_reservation sampleAfterCreate
            overwriteReservation).2.hotels overwriteReservation.hotel_id = some h2 ∧
        sampleReservation.room_number ∈ h2.reserved_rooms ∧
        overwriteReservation.room_number ∈ h2.reserved_rooms) ∧
      (∀ kv ∈ (ReservationService.create_reservation sampleAfterCreate
          overwriteReservation).2.reservations,
        ¬ (kv.2.hotel_id = overwriteReservation.hotel_id ∧
            kv.2.room_number = sampleReservation.room_number))) :=
  ⟨by decide,
    C9_reservation_id_overwrite sampleAfterCreate sampleReservation overwriteReservation
      { hotel_id := "H1", name := "N", rooms := 5, reserved_rooms := [2] }
      (by decide) (by decide) (by decide) (by decide) (by decide) (by decide) (by decide)
      (by decide) (by decide)⟩
